import Mathlib

/-!
Shallow embedding of `src/web_video_server.cpp` (the `web_video_server`
ROS node): the session registry and its periodic cleanup sweep, the codec
registry consulted by the `/stream` and `/stream_viewer` handlers, the
fault-isolating request logger wrapped around the handler group, the
topic-directory page rendered by `handle_list_streams`, and the startup
parameter defaults read in the `WebVideoServer` constructor.
-/

/-- An HTTP request as the handlers observe it: the raw uri (used only for
logging), the path used for dispatch, and the parsed query parameters. -/
structure HttpRequest where
  uri : String
  path : String
  query : List (String × String)
deriving DecidableEq

/-- `HttpRequest::get_query_param_value_or_default`: the value bound to
`name` in the query string, or `default_value` when absent. -/
def HttpRequest.get_query_param_value_or_default
    (request : HttpRequest) (name default_value : String) : String :=
  match List.lookup name request.query with
  | some v => v
  | none => default_value

/-- One streaming session (`ImageStreamer`): its bound topic and the value
its activity predicate reports during the interval we reason about. -/
structure ImageStreamer where
  topic : String
  inactive : Bool
deriving DecidableEq

/-- `ImageStreamer::getTopic`. -/
def ImageStreamer.getTopic (s : ImageStreamer) : String := s.topic

/-- `ImageStreamer::isInactive`. -/
def ImageStreamer.isInactive (s : ImageStreamer) : Bool := s.inactive

/-- A codec entry (`ImageStreamerType`): a session factory and a
viewer-fragment renderer.  Both are opaque collaborators here. -/
structure ImageStreamerType where
  create_streamer : HttpRequest → ImageStreamer
  create_viewer : HttpRequest → String

/-- The codec registry built in the `WebVideoServer` constructor: exactly
the keys "mjpeg", "vp8" and "h264", each bound to its factory. -/
def stream_types (mjpeg vp8 h264 : ImageStreamerType) :
    List (String × ImageStreamerType) :=
  [("mjpeg", mjpeg), ("vp8", vp8), ("h264", h264)]

/-- What a handler sends back on the connection. -/
inductive Reply where
  /-- `HttpReply::stock_reply(HttpReply::not_found)`. -/
  | stockNotFound : Reply
  /-- A streaming session was created, started and registered;
  the body is produced by the session itself. -/
  | streaming : Reply
  /-- An ordinary HTML page, given as the sequence of strings written. -/
  | html : List String → Reply
deriving DecidableEq

/-- `WebVideoServer::handle_stream`: resolve the `type` query parameter
(default "mjpeg"); on a registry hit create, start and register a session;
on a miss send the stock not-found reply and leave the registry alone. -/
def handle_stream (types : List (String × ImageStreamerType))
    (request : HttpRequest) (image_subscribers : List ImageStreamer) :
    Reply × List ImageStreamer :=
  let type := request.get_query_param_value_or_default "type" "mjpeg"
  match List.lookup type types with
  | some streamer_type =>
      let streamer := streamer_type.create_streamer request
      (Reply.streaming, image_subscribers ++ [streamer])
  | none =>
      (Reply.stockNotFound, image_subscribers)

/-- `WebVideoServer::handle_stream_viewer`: resolve the `type` query
parameter (default "mjpeg"); on a registry hit write an HTML page that
embeds the codec viewer fragment; on a miss send the stock not-found
reply.  The session registry is never touched. -/
def handle_stream_viewer (types : List (String × ImageStreamerType))
    (request : HttpRequest) (image_subscribers : List ImageStreamer) :
    Reply × List ImageStreamer :=
  let type := request.get_query_param_value_or_default "type" "mjpeg"
  match List.lookup type types with
  | some streamer_type =>
      let topic := request.get_query_param_value_or_default "topic" ""
      (Reply.html
        ["<html><head><title>" ++ topic ++ "</title></head><body>",
         "<h1>" ++ topic ++ "</h1>",
         streamer_type.create_viewer request,
         "</body></html>"],
       image_subscribers)
  | none =>
      (Reply.stockNotFound, image_subscribers)

/-- Model of `std::remove_if` on a vector: the retained elements (those on
which the predicate is false) are copied to the front in their original
order; the slots from the returned new-end index to the end of the vector
are never written by the algorithm, so they keep the values they held
before the call.  Returns the vector contents after the call together with
the new-end index. -/
def removeIf (pred : α → Bool) (l : List α) : List α × Nat :=
  let kept := l.filter (fun x => !(pred x))
  (kept ++ l.drop kept.length, kept.length)

/-- `WebVideoServer::cleanup_inactive_streams`: try-lock the subscriber
mutex; when the lock is unavailable do nothing.  When it is acquired, run
`std::remove_if` with `ImageStreamer::isInactive`, log `getTopic()` of
every element sitting between the returned new end and the end of the
vector, then erase that range.  Returns the registry afterwards and the
list of topics logged. -/
def cleanup_inactive_streams (lock_acquired : Bool)
    (image_subscribers : List ImageStreamer) :
    List ImageStreamer × List String :=
  if lock_acquired then
    let r := removeIf ImageStreamer.isInactive image_subscribers
    let logged := (r.1.drop r.2).map ImageStreamer.getTopic
    (r.1.take r.2, logged)
  else
    (image_subscribers, [])

/-- `boost::algorithm::starts_with` on strings: character-wise test that
`pre` is a prefix of `s`. -/
def starts_with (s pre : String) : Bool :=
  List.isPrefixOf pre.data s.data

/-- `boost::algorithm::ends_with` on strings: character-wise test that
`post` is a suffix of `s`. -/
def ends_with (s post : String) : Bool :=
  List.isSuffixOf post.data s.data

/-- The strings written to the connection for one image topic claimed by
`base_topic` in `handle_list_streams`: the `/stream_viewer` link labeled
by the topic suffix relative to the base, then the `/snapshot` link. -/
def renderImageTopicItem (base_topic image_topic : String) : List String :=
  ["<li><a href=\"/stream_viewer?topic=",
   image_topic,
   "\">",
   image_topic.drop base_topic.length,
   "</a> (",
   "<a href=\"/snapshot?topic=",
   image_topic,
   "\">Snapshot</a>)",
   "</li>"]

/-- The inner loop of `handle_list_streams`: walk the remaining image
topics left to right; each topic starting with `base_topic` is rendered
and erased from the working vector, the rest are kept.  Returns the
strings written and the image topics still unclaimed. -/
def scanImageTopics (base_topic : String) :
    List String → List String × List String
  | [] => ([], [])
  | t :: rest =>
    let next := scanImageTopics base_topic rest
    if starts_with t base_topic then
      (renderImageTopicItem base_topic t ++ next.1, next.2)
    else
      (next.1, t :: next.2)

/-- The outer `BOOST_FOREACH` loop of `handle_list_streams` over the
camera-info topics.  A topic ending in "/camera_info" opens a `<li>` with
the base (the name with the trailing "camera_info" stripped), renders the
image topics it claims, and closes its inner `<ul>`; the closing `</li>`
is written outside the suffix test, so every camera-info topic emits one.
Returns the strings written and the image topics never claimed. -/
def listStreamsLoop :
    List String → List String → List String × List String
  | [], _image_topics => ([], _image_topics)
  | c :: rest, image_topics =>
    if ends_with c "/camera_info" then
      let base_topic := c.dropRight ("camera_info").length
      let scanned := scanImageTopics base_topic image_topics
      let next := listStreamsLoop rest scanned.2
      (["<li>", base_topic, "<ul>"] ++ scanned.1
         ++ ["</ul>", "</li>"] ++ next.1,
       next.2)
    else
      let next := listStreamsLoop rest image_topics
      ("</li>" :: next.1, next.2)

/-- `WebVideoServer::handle_list_streams`, body writes only: the page
skeleton around the grouping loop.  Inputs are the camera-info topics and
image topics discovered on the bus, in discovery order. -/
def handle_list_streams (camera_info_topics image_topics : List String) :
    List String :=
  ["<html><head><title>ROS Image Topic List</title></head><body><h1>Available ROS Image Topics:</h1>",
   "<ul>"]
  ++ (listStreamsLoop camera_info_topics image_topics).1
  ++ ["</ul></body></html>"]

/-- Directory pairing as the spec words it: for each metadata topic ending
in "/camera_info", strip "camera_info" to get the base (trailing separator
preserved), claim every still-unclaimed data topic whose name starts with
the base, and remove the claimed topics from the working set; metadata
topics without the suffix contribute nothing.  Returns the groups
`(base, claimed topics)` in discovery order and the never-claimed data
topics. -/
def specPairSources :
    List String → List String → List (String × List String) × List String
  | [], _image_topics => ([], _image_topics)
  | c :: rest, image_topics =>
    if ends_with c "/camera_info" then
      let base_topic := c.dropRight ("camera_info").length
      let claimed := image_topics.filter (fun t => starts_with t base_topic)
      let remaining := image_topics.filter (fun t => !(starts_with t base_topic))
      let next := specPairSources rest remaining
      ((base_topic, claimed) :: next.1, next.2)
    else
      specPairSources rest image_topics

/-- The strings a group of `specPairSources` is rendered to. -/
def renderGroup (group : String × List String) : List String :=
  ["<li>", group.1, "<ul>"]
    ++ (group.2.map (renderImageTopicItem group.1)).flatten
    ++ ["</ul>", "</li>"]

/-- A request handler as the router sees it: it either completes, yielding
the strings it wrote, or raises an error. -/
abbrev HttpServerRequestHandler := HttpRequest → Except String (List String)

/-- `ros_connection_logger`, the decorator wrapped around the handler
group: log the request target, invoke the wrapped handler, and catch any
error it raises, logging it as a warning instead of propagating it.
Returns the handler output (`none` when it raised) and the log lines. -/
def ros_connection_logger (forward : HttpServerRequestHandler)
    (request : HttpRequest) : Option (List String) × List String :=
  match forward request with
  | Except.ok out =>
      (some out, ["Handling Request: " ++ request.uri])
  | Except.error e =>
      (none,
       ["Handling Request: " ++ request.uri,
        "Error Handling Request: " ++ e])

/-- The handler group's dispatch: path-to-handler table with a default
handler (the stock not-found reply) for unmapped paths. -/
def dispatchRequest (handlers : List (String × HttpServerRequestHandler))
    (default_handler : HttpServerRequestHandler)
    (request : HttpRequest) : Except String (List String) :=
  match List.lookup request.path handlers with
  | some h => h request
  | none => default_handler request

/-- The server loop over a sequence of requests: each one runs through the
logging decorator around the dispatch table, independently of the
others. -/
def serveRequests (handlers : List (String × HttpServerRequestHandler))
    (default_handler : HttpServerRequestHandler)
    (requests : List HttpRequest) :
    List (Option (List String) × List String) :=
  requests.map
    (fun r => ros_connection_logger (dispatchRequest handlers default_handler) r)

/-- The private node handle's integer parameter store. -/
structure NodeHandleParams where
  int_params : List (String × Int)

/-- `ros::NodeHandle::param`: the stored value, or the default when the
parameter was not provided. -/
def NodeHandleParams.param (nh : NodeHandleParams)
    (name : String) (default_value : Int) : Int :=
  match List.lookup name nh.int_params with
  | some v => v
  | none => default_value

/-- The configuration the `WebVideoServer` constructor settles on. -/
structure ServerConfig where
  port : Int
  server_threads : Int
  ros_threads : Int
  cleanup_timer_period_ms : Nat
deriving DecidableEq

/-- The `WebVideoServer` constructor's configuration reads: `port`
(default 8080), `server_threads` (default 1), `ros_threads` (default 2),
and the cleanup timer created with the constant period
`ros::Duration(0.5)`, i.e. 500 ms, read from no parameter. -/
def webVideoServerConfig (private_nh : NodeHandleParams) : ServerConfig :=
  { port := private_nh.param "port" 8080,
    server_threads := private_nh.param "server_threads" 1,
    ros_threads := private_nh.param "ros_threads" 2,
    cleanup_timer_period_ms := 500 }

/-- The uncontended sweep in closed form: the registry keeps exactly the
sessions whose activity predicate reports active, and the log holds the
topics of the elements that originally sat in the trailing slots of the
vector (the slots `std::remove_if` never writes). -/
theorem cleanup_uncontended_eq (l : List ImageStreamer) :
    cleanup_inactive_streams true l
      = (l.filter (fun s => !(s.isInactive)),
         (l.drop (l.filter (fun s => !(s.isInactive))).length).map
           ImageStreamer.getTopic) := by
  simp only [cleanup_inactive_streams, removeIf, if_true]
  rw [List.take_left, List.drop_left]

/-- C2: when the sweep acquires the lock, the registry afterwards contains
exactly the previously held sessions whose `isInactive()` reported false;
a session is removed only if its `isInactive()` was true at that moment;
and when every held session reports inactive, one uncontended sweep leaves
the registry empty. -/
theorem sweep_retains_exactly_active (l : List ImageStreamer) :
    (cleanup_inactive_streams true l).1 = l.filter (fun s => !(s.isInactive))
    ∧ (∀ s : ImageStreamer,
        s ∈ (cleanup_inactive_streams true l).1 ↔ s ∈ l ∧ s.isInactive = false)
    ∧ ((∀ s ∈ l, s.isInactive = true) →
        (cleanup_inactive_streams true l).1 = []) := by
  have h := cleanup_uncontended_eq l
  refine ⟨by rw [h], fun s => ?_, fun hall => ?_⟩
  · rw [h]
    simp [List.mem_filter]
  · rw [h]
    simp only []
    exact List.filter_eq_nil_iff.mpr (fun a ha => by simp [hall a ha])

/-- Witness for C2 at a concrete all-inactive registry. -/
theorem sweep_retains_exactly_active_witness :
    (cleanup_inactive_streams true [⟨"a", true⟩, ⟨"b", true⟩]).1 = [] :=
  (sweep_retains_exactly_active [⟨"a", true⟩, ⟨"b", true⟩]).2.2 (by decide)

/-- C5: when the try-lock fails, the sweep returns immediately leaving the
registry untouched and logging nothing. -/
theorem sweep_contended_noop (l : List ImageStreamer) :
    cleanup_inactive_streams false l = (l, []) := rfl

/-- C6: at the registry `[("a", active), ("b", inactive), ("c", active)]`
the uncontended sweep removes the session bound to topic "b", yet the
identifier it logs is "c" — the topic of a retained session that
originally sat in the trailing slot of the vector — so the logged
identifiers are not the topics of the removed sessions. -/
theorem sweep_logs_wrong_topic :
    cleanup_inactive_streams true
        [⟨"a", false⟩, ⟨"b", true⟩, ⟨"c", false⟩]
      = ([⟨"a", false⟩, ⟨"c", false⟩], ["c"])
    ∧ (cleanup_inactive_streams true
        [⟨"a", false⟩, ⟨"b", true⟩, ⟨"c", false⟩]).2 ≠ ["b"] := by
  decide

/-- C8: a second uncontended sweep right after a first one, with no
intervening inserts and unchanged activity predicates, removes nothing
more: it returns the same registry and logs nothing. -/
theorem sweep_idempotent (l : List ImageStreamer) :
    cleanup_inactive_streams true ((cleanup_inactive_streams true l).1)
      = ((cleanup_inactive_streams true l).1, []) := by
  have hk : (l.filter (fun s => !(s.isInactive))).filter
        (fun s => !(s.isInactive))
      = l.filter (fun s => !(s.isInactive)) :=
    List.filter_eq_self.mpr (fun a ha => (List.mem_filter.mp ha).2)
  simp [cleanup_uncontended_eq, hk]

/-- C9: with no parameter provided the constructor settles on port 8080,
one server thread and two ros threads, and for every parameter store the
cleanup timer period is the constant 500 ms. -/
theorem default_configuration (private_nh : NodeHandleParams)
    (hp : List.lookup "port" private_nh.int_params = none)
    (hs : List.lookup "server_threads" private_nh.int_params = none)
    (hr : List.lookup "ros_threads" private_nh.int_params = none) :
    webVideoServerConfig private_nh
      = { port := 8080, server_threads := 1, ros_threads := 2,
          cleanup_timer_period_ms := 500 }
    ∧ ∀ nh : NodeHandleParams,
        (webVideoServerConfig nh).cleanup_timer_period_ms = 500 := by
  constructor
  · simp [webVideoServerConfig, NodeHandleParams.param, hp, hs, hr]
  · intro nh
    rfl

/-- Witness for C9 at the empty parameter store. -/
theorem default_configuration_witness :
    webVideoServerConfig ⟨[]⟩
      = { port := 8080, server_threads := 1, ros_threads := 2,
          cleanup_timer_period_ms := 500 } :=
  (default_configuration ⟨[]⟩ rfl rfl rfl).1

/-- C1: when the resolved `type` query parameter (default "mjpeg") misses
the codec registry, `handle_stream` and `handle_stream_viewer` both send
the stock not-found reply and the session registry is unchanged — no
session is created, started or inserted. -/
theorem unknown_codec_not_found (mjpeg vp8 h264 : ImageStreamerType)
    (request : HttpRequest) (image_subscribers : List ImageStreamer)
    (hmiss : List.lookup
        (request.get_query_param_value_or_default "type" "mjpeg")
        (stream_types mjpeg vp8 h264) = none) :
    handle_stream (stream_types mjpeg vp8 h264) request image_subscribers
      = (Reply.stockNotFound, image_subscribers)
    ∧ handle_stream_viewer (stream_types mjpeg vp8 h264) request
        image_subscribers
      = (Reply.stockNotFound, image_subscribers) := by
  constructor
  · simp [handle_stream, hmiss]
  · simp [handle_stream_viewer, hmiss]

/-- A do-nothing codec entry, used only to instantiate witnesses. -/
def trivialStreamerType : ImageStreamerType :=
  { create_streamer := fun _ => { topic := "", inactive := false },
    create_viewer := fun _ => "" }

/-- A `/stream` request asking for the unregistered codec "webm". -/
def webmRequest : HttpRequest :=
  { uri := "/stream?type=webm", path := "/stream",
    query := [("type", "webm")] }

/-- Witness for C1 at the unregistered codec name "webm". -/
theorem unknown_codec_not_found_witness :
    handle_stream
        (stream_types trivialStreamerType trivialStreamerType trivialStreamerType)
        webmRequest [] = (Reply.stockNotFound, [])
    ∧ handle_stream_viewer
        (stream_types trivialStreamerType trivialStreamerType trivialStreamerType)
        webmRequest [] = (Reply.stockNotFound, []) :=
  unknown_codec_not_found trivialStreamerType trivialStreamerType
    trivialStreamerType webmRequest [] rfl

/-- C4: the logging decorator turns any error raised by the dispatched
handler into a warning log line instead of propagating it, and a request
whose handler fails on every call does not prevent a later request on a
different path, whose handler succeeds, from being served with its own
output. -/
theorem router_fault_isolation
    (handlers : List (String × HttpServerRequestHandler))
    (default_handler : HttpServerRequestHandler)
    (r1 r2 : HttpRequest) (out : List String)
    (hfail : ∀ q : HttpRequest, q.path = r1.path →
        ∃ msg, dispatchRequest handlers default_handler q = Except.error msg)
    (_hdistinct : r1.path ≠ r2.path)
    (hok : dispatchRequest handlers default_handler r2 = Except.ok out) :
    (∃ msg,
        ros_connection_logger (dispatchRequest handlers default_handler) r1
          = (none,
             ["Handling Request: " ++ r1.uri,
              "Error Handling Request: " ++ msg]))
    ∧ serveRequests handlers default_handler [r1, r2]
        = [ros_connection_logger (dispatchRequest handlers default_handler) r1,
           (some out, ["Handling Request: " ++ r2.uri])] := by
  obtain ⟨msg, hmsg⟩ := hfail r1 rfl
  refine ⟨⟨msg, ?_⟩, ?_⟩
  · simp [ros_connection_logger, hmsg]
  · simp [serveRequests, ros_connection_logger, hok]

/-- A dispatch table whose `/stream` handler raises on every call and
whose `/` handler succeeds; used only to instantiate witnesses. -/
def failingHandlers : List (String × HttpServerRequestHandler) :=
  [("/stream", fun _ => Except.error "boom"),
   ("/", fun _ => Except.ok ["index"])]

/-- The stock not-found default handler of the handler group. -/
def stockNotFoundHandler : HttpServerRequestHandler :=
  fun _ => Except.ok ["404 Not Found"]

/-- A request for the always-failing path. -/
def streamPathRequest : HttpRequest :=
  { uri := "/stream", path := "/stream", query := [] }

/-- A request for the succeeding path. -/
def indexPathRequest : HttpRequest :=
  { uri := "/", path := "/", query := [] }

/-- Witness for C4: the always-failing `/stream` handler does not keep the
following `/` request from succeeding. -/
theorem router_fault_isolation_witness :
    (∃ msg,
        ros_connection_logger
            (dispatchRequest failingHandlers stockNotFoundHandler)
            streamPathRequest
          = (none,
             ["Handling Request: " ++ streamPathRequest.uri,
              "Error Handling Request: " ++ msg]))
    ∧ serveRequests failingHandlers stockNotFoundHandler
        [streamPathRequest, indexPathRequest]
        = [ros_connection_logger
             (dispatchRequest failingHandlers stockNotFoundHandler)
             streamPathRequest,
           (some ["index"], ["Handling Request: " ++ indexPathRequest.uri])] :=
  router_fault_isolation failingHandlers stockNotFoundHandler
    streamPathRequest indexPathRequest ["index"]
    (fun q hq => ⟨"boom", by simp [dispatchRequest, hq, failingHandlers, streamPathRequest]⟩)
    (by decide) rfl

/-- C7: a metadata topic not ending in "/camera_info" opens no group in
the directory loop: it produces no base, claims no image topics (the
working set passes through unchanged), and contributes only the stray
closing tag written outside the suffix test. -/
theorem skipped_metadata_topic_no_group (c : String)
    (rest image_topics : List String)
    (h : ends_with c "/camera_info" = false) :
    listStreamsLoop (c :: rest) image_topics
      = ("</li>" :: (listStreamsLoop rest image_topics).1,
         (listStreamsLoop rest image_topics).2) := by
  simp [listStreamsLoop, h]

/-- Witness for C7 at the metadata topic "/sensor/info". -/
theorem skipped_metadata_topic_no_group_witness :
    listStreamsLoop ["/sensor/info"] ["/sensor/image_raw"]
      = ("</li>" :: (listStreamsLoop [] ["/sensor/image_raw"]).1,
         (listStreamsLoop [] ["/sensor/image_raw"]).2) :=
  skipped_metadata_topic_no_group "/sensor/info" [] ["/sensor/image_raw"]
    (by decide)

/-- C10: every enumerated camera-info topic writes exactly one closing
`</li>` outside the suffix test: a topic without the "/camera_info" suffix
contributes exactly that stray tag, a run of only such topics renders as
nothing but one stray `</li>` per topic with the image topics untouched,
and a topic with the suffix also ends its group with the same
unconditional closing tag. -/
theorem stray_closing_li_per_metadata_topic :
    (∀ (c : String) (rest image_topics : List String),
        ends_with c "/camera_info" = false →
        (listStreamsLoop (c :: rest) image_topics).1
          = "</li>" :: (listStreamsLoop rest image_topics).1)
    ∧ (∀ camera_info_topics image_topics : List String,
        (∀ c ∈ camera_info_topics, ends_with c "/camera_info" = false) →
        listStreamsLoop camera_info_topics image_topics
          = (camera_info_topics.map (fun _ => "</li>"), image_topics))
    ∧ (∀ (c : String) (rest image_topics : List String),
        ends_with c "/camera_info" = true →
        (listStreamsLoop (c :: rest) image_topics).1
          = ["<li>", c.dropRight ("camera_info").length, "<ul>"]
              ++ (scanImageTopics (c.dropRight ("camera_info").length)
                    image_topics).1
              ++ ["</ul>", "</li>"]
              ++ (listStreamsLoop rest
                    (scanImageTopics (c.dropRight ("camera_info").length)
                       image_topics).2).1) := by
  refine ⟨fun c rest image_topics h => by simp [listStreamsLoop, h],
          fun camera_info_topics => ?_,
          fun c rest image_topics h => by simp [listStreamsLoop, h]⟩
  induction camera_info_topics with
  | nil => intro image_topics _; rfl
  | cons c rest ih =>
      intro image_topics hall
      have hc : ends_with c "/camera_info" = false := hall c (by simp)
      have hrest : ∀ x ∈ rest, ends_with x "/camera_info" = false :=
        fun x hx => hall x (by simp [hx])
      simp [listStreamsLoop, hc, ih image_topics hrest]

/-- Witness for C10 at the metadata topics "/sensor/info" and "/x/info". -/
theorem stray_closing_li_per_metadata_topic_witness :
    listStreamsLoop ["/sensor/info", "/x/info"] ["/sensor/image_raw"]
      = (["</li>", "</li>"], ["/sensor/image_raw"]) :=
  stray_closing_li_per_metadata_topic.2.1 ["/sensor/info", "/x/info"]
    ["/sensor/image_raw"] (by decide)

/-- The inner scan in closed form: the claimed topics are exactly the
still-unclaimed image topics starting with the base, rendered in order,
and the working set keeps exactly the others. -/
theorem scanImageTopics_eq (base_topic : String) (l : List String) :
    scanImageTopics base_topic l
      = (((l.filter (fun t => starts_with t base_topic)).map
            (renderImageTopicItem base_topic)).flatten,
         l.filter (fun t => !(starts_with t base_topic))) := by
  induction l with
  | nil => rfl
  | cons t rest ih =>
      cases h : starts_with t base_topic <;>
        simp [scanImageTopics, h, ih, List.filter_cons]

/-- C3: the directory loop refines the spec-level pairing — when every
metadata topic carries the "/camera_info" suffix the rendered strings are
exactly the groups of `specPairSources` in discovery order and the final
working set is its leftover — and on the spec's concrete example the
groups are `/cam1/` with `/cam1/image_raw`, `/cam2/` with both
`/cam2/image_raw` topics, while `/other/image_raw`, claimed by no base, is
never written to the page. -/
theorem directory_pairing :
    (∀ camera_info_topics image_topics : List String,
        (∀ c ∈ camera_info_topics, ends_with c "/camera_info" = true) →
        listStreamsLoop camera_info_topics image_topics
          = (((specPairSources camera_info_topics image_topics).1.map
                renderGroup).flatten,
             (specPairSources camera_info_topics image_topics).2))
    ∧ (specPairSources ["/cam1/camera_info", "/cam2/camera_info"]
          ["/cam1/image_raw", "/cam2/image_raw", "/cam2/image_raw/compressed",
           "/other/image_raw"]).1
        = [("/cam1/", ["/cam1/image_raw"]),
           ("/cam2/", ["/cam2/image_raw", "/cam2/image_raw/compressed"])]
    ∧ "/other/image_raw" ∉
        handle_list_streams ["/cam1/camera_info", "/cam2/camera_info"]
          ["/cam1/image_raw", "/cam2/image_raw", "/cam2/image_raw/compressed",
           "/other/image_raw"] := by
  refine ⟨fun camera_info_topics => ?_, by decide, by decide⟩
  induction camera_info_topics with
  | nil => intro image_topics _; rfl
  | cons c rest ih =>
      intro image_topics hall
      have hc : ends_with c "/camera_info" = true := hall c (by simp)
      have hrest : ∀ x ∈ rest, ends_with x "/camera_info" = true :=
        fun x hx => hall x (by simp [hx])
      simp [listStreamsLoop, specPairSources, hc, scanImageTopics_eq,
            renderGroup, ih _ hrest]

/-- Witness for C3: the refinement instantiated at the spec's concrete
example. -/
theorem directory_pairing_witness :
    listStreamsLoop ["/cam1/camera_info", "/cam2/camera_info"]
        ["/cam1/image_raw", "/cam2/image_raw", "/cam2/image_raw/compressed",
         "/other/image_raw"]
      = (((specPairSources ["/cam1/camera_info", "/cam2/camera_info"]
              ["/cam1/image_raw", "/cam2/image_raw",
               "/cam2/image_raw/compressed", "/other/image_raw"]).1.map
            renderGroup).flatten,
         (specPairSources ["/cam1/camera_info", "/cam2/camera_info"]
            ["/cam1/image_raw", "/cam2/image_raw",
             "/cam2/image_raw/compressed", "/other/image_raw"]).2) :=
  directory_pairing.1 ["/cam1/camera_info", "/cam2/camera_info"]
    ["/cam1/image_raw", "/cam2/image_raw", "/cam2/image_raw/compressed",
     "/other/image_raw"] (by decide)
